import Mathlib

/-!
Shallow embedding of the order-management system: the Flask order store
(`endpoints.py`), the assistant's cancellation-eligibility tool and confirmed
action executor (`order_assistant.py`), and the Streamlit confirmation-button
handler (`main.py`).

Python `datetime.datetime` values are modelled as `Int` microseconds since the
Unix epoch (1970-01-01T00:00:00); `datetime.date()` is floor division by the
microseconds in a day, and `timedelta(days = n)` is `n` times that constant.
Calendar conversion uses the standard civil-calendar algorithms, so
`fromisoformat` and `date()` printing agree with Python's proleptic Gregorian
calendar.
-/

/-- Microseconds in one day: the resolution of Python `datetime`. -/
def usecPerDay : Int := 86400000000

/-- `datetime.timedelta(days = n)` as microseconds. -/
def timedeltaDays (n : Int) : Int := n * usecPerDay

/-- `dt.date()` as a day number (days since 1970-01-01, floor division like
Python's calendar fields). -/
def dateOf (t : Int) : Int := Int.fdiv t usecPerDay

/-- Gregorian leap-year test. -/
def isLeapYear (y : Int) : Bool :=
  (Int.emod y 4 = 0 && Int.emod y 100 ≠ 0) || Int.emod y 400 = 0

/-- Days in a month of the proleptic Gregorian calendar. -/
def daysInMonth (y m : Int) : Int :=
  if m = 2 then (if isLeapYear y then 29 else 28)
  else if m = 4 || m = 6 || m = 9 || m = 11 then 30
  else 31

/-- Days since 1970-01-01 of the civil date `y-m-d` (days-from-civil
algorithm, floor divisions). -/
def daysFromCivil (y m d : Int) : Int :=
  let y2 : Int := if m ≤ 2 then y - 1 else y
  let era : Int := Int.fdiv y2 400
  let yoe : Int := y2 - era * 400
  let mp : Int := Int.emod (m + 9) 12
  let doy : Int := Int.fdiv (153 * mp + 2) 5 + d - 1
  let doe : Int := yoe * 365 + Int.fdiv yoe 4 - Int.fdiv yoe 100 + doy
  era * 146097 + doe - 719468

/-- Civil date `(y, m, d)` of a day number (civil-from-days algorithm). -/
def civilFromDays (z : Int) : Int × Int × Int :=
  let z2 : Int := z + 719468
  let era : Int := Int.fdiv z2 146097
  let doe : Int := z2 - era * 146097
  let yoe : Int :=
    Int.fdiv (doe - Int.fdiv doe 1460 + Int.fdiv doe 36524 - Int.fdiv doe 146096) 365
  let y : Int := yoe + era * 400
  let doy : Int := doe - (365 * yoe + Int.fdiv yoe 4 - Int.fdiv yoe 100)
  let mp : Int := Int.fdiv (5 * doy + 2) 153
  let d : Int := doy - Int.fdiv (153 * mp + 2) 5 + 1
  let m : Int := mp + (if mp < 10 then 3 else -9)
  (if m ≤ 2 then y + 1 else y, m, d)

/-- Zero-pad a (nonnegative) number to two digits, as `str(date)` does. -/
def pad2 (n : Int) : String :=
  if n < 10 then "0" ++ toString n else toString n

/-- Zero-pad a (nonnegative) number to four digits, as `str(date)` pads the
year. -/
def pad4 (n : Int) : String :=
  if n < 10 then "000" ++ toString n
  else if n < 100 then "00" ++ toString n
  else if n < 1000 then "0" ++ toString n
  else toString n

/-- `str(dt.date())` for a day number: ISO `YYYY-MM-DD`. -/
def showDate (z : Int) : String :=
  let c := civilFromDays z
  pad4 c.1 ++ "-" ++ pad2 c.2.1 ++ "-" ++ pad2 c.2.2

/-- Python's `str.lower()` as used on order statuses: lowercase each
character (ASCII case mapping, which covers every status string the system
produces). -/
def lowerStr (s : String) : String := ⟨s.data.map Char.toLower⟩

/-- Read exactly `n` decimal digits from the front of a character list,
returning their value and the rest. -/
def readDigits : Nat → List Char → Option (Nat × List Char)
  | 0, cs => some (0, cs)
  | _ + 1, [] => none
  | n + 1, c :: cs =>
    if c.isDigit then
      match readDigits n cs with
      | some (v, rest) => some ((c.toNat - 48) * 10 ^ n + v, rest)
      | none => none
    else none

/-- `datetime(...)` constructor validation: ranges of every calendar and time
field, then conversion to epoch microseconds. -/
def mkDateTime (y mo d h mi s us : Nat) : Option Int :=
  if 1 ≤ y ∧ y ≤ 9999 ∧ 1 ≤ mo ∧ mo ≤ 12 ∧ 1 ≤ d ∧
      (d : Int) ≤ daysInMonth (y : Int) (mo : Int) ∧ h ≤ 23 ∧ mi ≤ 59 ∧ s ≤ 59 then
    some (daysFromCivil (y : Int) (mo : Int) (d : Int) * usecPerDay
      + ((h * 3600 + mi * 60 + s) * 1000000 + us : Nat))
  else none

/-- Fractional-seconds part: a dot followed by exactly 3 or 6 digits, as
`fromisoformat` requires; absent is microseconds 0. -/
def readFraction (cs : List Char) : Option (Nat × List Char) :=
  match cs with
  | '.' :: rest =>
    match readDigits 6 rest with
    | some (us, rest6) => some (us, rest6)
    | none =>
      match readDigits 3 rest with
      | some (ms, rest3) => some (ms * 1000, rest3)
      | none => none
  | _ => some (0, cs)

/-- Time-of-day part `HH[:MM[:SS[.fff[fff]]]]`, returning
`(hour, minute, second, microsecond, rest)`. -/
def readTime (cs : List Char) : Option (Nat × Nat × Nat × Nat × List Char) :=
  match readDigits 2 cs with
  | none => none
  | some (h, r1) =>
    match r1 with
    | ':' :: r2 =>
      match readDigits 2 r2 with
      | none => none
      | some (mi, r3) =>
        match r3 with
        | ':' :: r4 =>
          match readDigits 2 r4 with
          | none => none
          | some (s, r5) =>
            match readFraction r5 with
            | none => none
            | some (us, r6) => some (h, mi, s, us, r6)
        | _ => some (h, mi, 0, 0, r3)
    | _ => some (h, 0, 0, 0, r1)

/-- Timezone suffix `+HH:MM[:SS[.ffffff]]` or `-HH:MM[:SS[.ffffff]]`: parsed
and validated (offset strictly under 24 hours, as `timezone` requires) but
discarded, since the code only ever uses the datetime's own calendar fields
(`.date()`), which ignore the offset. Empty input means a naive datetime. -/
def readTzSuffix (cs : List Char) : Option Unit :=
  match cs with
  | [] => some ()
  | c :: rest =>
    if c = '+' ∨ c = '-' then
      match readDigits 2 rest with
      | none => none
      | some (h, r1) =>
        match r1 with
        | ':' :: r2 =>
          match readDigits 2 r2 with
          | none => none
          | some (mi, r3) =>
            match r3 with
            | ':' :: r4 =>
              match readDigits 2 r4 with
              | none => none
              | some (s, r5) =>
                match readFraction r5 with
                | none => none
                | some (us, r6) =>
                  if r6 = [] ∧ ((h * 3600 + mi * 60 + s) * 1000000 + us < 86400000000) then
                    some () else none
            | _ =>
              if r3 = [] ∧ (h * 3600 + mi * 60) * 1000000 < 86400000000 then
                some () else none
        | _ => none
    else none

/-- `datetime.datetime.fromisoformat`: `YYYY-MM-DD` optionally followed by a
one-character separator, a time of day, and a timezone suffix. Returns epoch
microseconds of the parsed calendar fields, or `none` on a `ValueError`. -/
def fromisoformat (str : String) : Option Int :=
  match readDigits 4 str.data with
  | none => none
  | some (y, r1) =>
    match r1 with
    | '-' :: r2 =>
      match readDigits 2 r2 with
      | none => none
      | some (mo, r3) =>
        match r3 with
        | '-' :: r4 =>
          match readDigits 2 r4 with
          | none => none
          | some (d, r5) =>
            match r5 with
            | [] => mkDateTime y mo d 0 0 0 0
            | _sep :: r6 =>
              match readTime r6 with
              | none => none
              | some (h, mi, s, us, r7) =>
                match readTzSuffix r7 with
                | none => none
                | some _ => mkDateTime y mo d h mi s us
        | _ => none
    | _ => none

/-!
The Order Store (`endpoints.py`): an in-memory mapping of order id to order
record, and the `/cancel/{order_id}` endpoint. A record is the Python dict
with keys `id`, `item`, `status`, `placed_date` (a datetime; `Option` models
the key being absent, which `cancel_order_endpoint` tests with
`"placed_date" not in order`), and `comment`.
-/

/-- One order record of the in-memory store. -/
structure StoreOrder where
  id : String
  item : String
  status : String
  placed_date : Option Int
  comment : String
  deriving DecidableEq

/-- The `orders` dict: an insertion-ordered association list with unique keys,
like a Python dict. -/
abbrev OrdersMap : Type := List (String × StoreOrder)

/-- `orders.get(order_id)`. -/
def OrdersMap.get : OrdersMap → String → Option StoreOrder
  | [], _ => none
  | (k, v) :: rest, key => if k = key then some v else OrdersMap.get rest key

/-- `orders[order_id] = order`: replace the value at an existing key in
place, append if the key is new (dict assignment). -/
def OrdersMap.set : OrdersMap → String → StoreOrder → OrdersMap
  | [], key, v => [(key, v)]
  | (k, v0) :: rest, key, v =>
    if k = key then (key, v) :: rest else (k, v0) :: OrdersMap.set rest key v

/-- A JSON response of the store, as the fields `jsonify` is given plus the
HTTP status code. Fields the endpoint does not put in the body are `none`. -/
structure ApiResponse where
  code : Nat
  success : Bool
  order_id : String
  message : Option String
  error : Option String
  deriving DecidableEq

/-- The serialized body of a response, modelling `response.text` (used by the
client only as an opaque error detail). Keys are rendered sorted, as
`jsonify` does. -/
def ApiResponse.text (r : ApiResponse) : String :=
  let part (k : String) (v : Option String) : String :=
    match v with
    | none => ""
    | some s => "\"" ++ k ++ "\":\"" ++ s ++ "\","
  "\x7b" ++ part "error" r.error ++ part "message" r.message ++
    "\"order_id\":\"" ++ r.order_id ++ "\",\"success\":" ++
    (if r.success then "true" else "false") ++ "\x7d"

/-- `POST /cancel/{order_id}` (`cancel_order_endpoint` in `endpoints.py`):
404 when the order is absent; 409 `success:true` when its status is already
`cancelled` (case-insensitive); 403 when `placed_date` is missing; otherwise
cancel iff `placed_date > datetime.now() - timedelta(days=10)` (a strict,
sub-day datetime comparison), mutating only the order's `status` and
`comment`; else 403 with a policy error. Returns the updated store and the
response. -/
def cancelOrderEndpoint (orders : OrdersMap) (order_id : String) (now : Int) :
    OrdersMap × ApiResponse :=
  match orders.get order_id with
  | none =>
    (orders, { code := 404, success := false, order_id := order_id,
               message := none, error := some "Order not found" })
  | some order =>
    let cancellation_cutoff : Int := now - timedeltaDays 10
    if lowerStr order.status = "cancelled" then
      (orders, { code := 409, success := true, order_id := order_id,
                 message := some "Order was already cancelled.", error := none })
    else
      match order.placed_date with
      | none =>
        (orders, { code := 403, success := false, order_id := order_id,
                   message := none,
                   error := some "Order cannot be cancelled (missing placement date)." })
      | some placed =>
        if placed > cancellation_cutoff then
          let order2 : StoreOrder :=
            { order with status := "Cancelled",
                         comment := order.comment ++ " [User Cancelled]" }
          (orders.set order_id order2,
           { code := 200, success := true, order_id := order_id,
             message := some "Order cancelled successfully.", error := none })
        else
          (orders, { code := 403, success := false, order_id := order_id,
                     message := none,
                     error := some ("Order cannot be cancelled (placed on " ++
                       showDate (dateOf placed) ++ "). Policy limit: 10 days.") })

/-!
The assistant side (`order_assistant.py`): the cancellation-eligibility tool
`_tool_cancel_order_check`, the confirmed-action executor
`execute_confirmed_action`, and the Streamlit confirmation-button handler of
`main.py`.
-/

/-- Outcome of the `GET /track/{order_id}` call as the tool observes it: a
404, a 200 body (after the `.get` defaulting of `status`/`item`; `placed_date`
is `none` when the key is absent), or another HTTP error status raised by
`raise_for_status`. -/
inductive TrackResult where
  | notFound
  | ok (status item : String) (placed_date : Option String)
  | httpError (code : Nat)
  deriving DecidableEq

/-- The `order_details` dict the tool builds from the track response. -/
structure OrderDetails where
  order_id : String
  item_name : String
  current_status : String
  placed_date_str : Option String
  deriving DecidableEq

/-- The `_pending_confirmation_details` dict staged by the tool. -/
structure PendingDetails where
  action_type : String
  details : OrderDetails
  deriving DecidableEq

/-- The `response_payload` dict the tool returns to the agent. -/
structure CheckPayload where
  order_id : String
  eligible_for_confirmation : Bool
  comment : String
  details : Option OrderDetails
  deriving DecidableEq

/-- Comment for a 404 from `/track`. -/
def notFoundComment (order_id : String) : String :=
  "Order ID '" ++ order_id ++ "' not found."

/-- Comment for an order whose status is already cancelled. -/
def alreadyCancelledComment (order_id item_name : String) : String :=
  "Order " ++ order_id ++ " (" ++ item_name ++ ") has already been cancelled."

/-- Comment for an eligible order (within the 10-day policy). -/
def eligibleComment (order_id item_name : String) (placedDay : Int)
    (current_status : String) : String :=
  "Order " ++ order_id ++ " (" ++ item_name ++ ", placed " ++ showDate placedDay ++
    ") status is '" ++ current_status ++ "'. It is within the 10-day cancellation policy. " ++
    "Inform the user confirmation is required via the UI button to attempt cancellation."

/-- Comment for an order outside the 10-day policy limit. -/
def tooOldComment (order_id item_name : String) (placedDay cutoffDay : Int) : String :=
  "Order " ++ order_id ++ " (" ++ item_name ++ ", placed " ++ showDate placedDay ++
    ") cannot be cancelled. It is older than the 10-day policy limit (cutoff date: " ++
    showDate cutoffDay ++ ")."

/-- Comment when the placed date string fails to parse. -/
def invalidDateComment (order_id : String) : String :=
  "Could not verify cancellation policy for order " ++ order_id ++
    ". Invalid date format received from API."

/-- Comment when the placed date is missing from the API response. -/
def missingDateComment (order_id : String) : String :=
  "Could not verify cancellation policy for order " ++ order_id ++
    ". Placement date missing from API response."

/-- Comment when `/track` returns another HTTP error status. -/
def apiErrorComment (order_id : String) (code : Nat) : String :=
  "API error checking order " ++ order_id ++ " status (" ++ toString code ++
    "). Cannot determine eligibility."

/-- `_tool_cancel_order_check`: evaluates cancellation eligibility from the
track outcome and the current time, returning the tool's `response_payload`
together with the new value of `self._pending_confirmation_details`. The
field is set to `None` on entry (line 99), so the result never depends on a
previously staged pending action; it becomes `some _` only on the eligible
branch. `elif placed_date_str:` is Python truthiness, so an empty string is
treated as a missing date. -/
def cancelOrderCheck (order_id : String) (track : TrackResult) (now : Int) :
    CheckPayload × Option PendingDetails :=
  let base : CheckPayload :=
    { order_id := order_id, eligible_for_confirmation := false, comment := "",
      details := none }
  match track with
  | .notFound => ({ base with comment := notFoundComment order_id }, none)
  | .httpError code => ({ base with comment := apiErrorComment order_id code }, none)
  | .ok current_status item_name placed_date_str =>
    let order_details : OrderDetails :=
      { order_id := order_id, item_name := item_name,
        current_status := current_status, placed_date_str := placed_date_str }
    let base2 : CheckPayload := { base with details := some order_details }
    if lowerStr current_status = "cancelled" then
      ({ base2 with comment := alreadyCancelledComment order_id item_name }, none)
    else
      match placed_date_str with
      | some ds =>
        if ds = "" then
          ({ base2 with comment := missingDateComment order_id }, none)
        else
          match fromisoformat ds with
          | some placed_date_dt =>
            let cutoff_date_limit : Int := dateOf (now - timedeltaDays 10)
            if dateOf placed_date_dt ≥ cutoff_date_limit then
              ({ base2 with
                  eligible_for_confirmation := true
                  comment := eligibleComment order_id item_name
                    (dateOf placed_date_dt) current_status },
               some { action_type := "cancel_order", details := order_details })
            else
              ({ base2 with
                  comment := tooOldComment order_id item_name
                    (dateOf placed_date_dt) cutoff_date_limit }, none)
          | none =>
            ({ base2 with comment := invalidDateComment order_id }, none)
      | none =>
        ({ base2 with comment := missingDateComment order_id }, none)

/-- The `details` dict handed to `execute_confirmed_action`; `Option` fields
model `.get` on possibly missing keys. -/
structure ActionDetails where
  order_id : Option String
  item_name : Option String
  deriving DecidableEq

/-- The details of a staged pending action, as `main.py` passes them on. -/
def ActionDetails.ofDetails (d : OrderDetails) : ActionDetails :=
  { order_id := some d.order_id, item_name := some d.item_name }

/-- Which control-flow branch of `execute_confirmed_action` produced the
result (instrumentation mirroring the code's if/elif/except structure). -/
inductive ExecBranch where
  | unknownAction
  | missingOrderId
  | success200
  | failure200
  | policy403
  | notFound404
  | httpStatusError (code : Nat)
  deriving DecidableEq

/-- Result of one `execute_confirmed_action` call: the store after the call,
the returned `result_message`, the branch taken, how many times
`POST /cancel` was invoked, and the value left in `self._last_action_result`
(always the result message, line 314). -/
structure ExecResult where
  orders : OrdersMap
  message : String
  branch : ExecBranch
  cancelCalls : Nat
  lastActionResult : Option String
  deriving DecidableEq

/-- `execute_confirmed_action` composed with the store's cancel endpoint.
It performs no check against any staged pending action: for
`action_type = "cancel_order"` it validates only that `details` holds a
truthy `order_id`, then always issues the `POST /cancel` call and classifies
the response by status code; a 409 (and any other unhandled status) falls
to `raise_for_status` and the generic `HTTPStatusError` message. -/
def executeConfirmedAction (action_type : String) (details : ActionDetails)
    (orders : OrdersMap) (now : Int) : ExecResult :=
  if action_type = "cancel_order" then
    match details.order_id with
    | none =>
      { orders := orders, branch := .missingOrderId, cancelCalls := 0,
        message := "Error: Missing order_id for cancellation.",
        lastActionResult := some "Error: Missing order_id for cancellation." }
    | some oid =>
      if oid = "" then
        { orders := orders, branch := .missingOrderId, cancelCalls := 0,
          message := "Error: Missing order_id for cancellation.",
          lastActionResult := some "Error: Missing order_id for cancellation." }
      else
      let item_name := details.item_name.getD "Unknown Item"
      let r := cancelOrderEndpoint orders oid now
      let resp := r.2
      if resp.code = 200 then
        if resp.success then
          { orders := r.1, branch := .success200, cancelCalls := 1,
            message := "✅ Order #" ++ oid ++ " (" ++ item_name ++ ") cancelled successfully.",
            lastActionResult := some ("✅ Order #" ++ oid ++ " (" ++ item_name ++ ") cancelled successfully.") }
        else
          let msg := "❌ API reported failure for order #" ++ oid ++ ": " ++
            resp.error.getD "Unknown reason"
          { orders := r.1, branch := .failure200, cancelCalls := 1,
            message := msg, lastActionResult := some msg }
      else if resp.code = 403 then
        let msg := "❌ Cannot cancel order #" ++ oid ++ " (" ++ item_name ++ "). Reason: " ++
          resp.error.getD "Policy restriction"
        { orders := r.1, branch := .policy403, cancelCalls := 1,
          message := msg, lastActionResult := some msg }
      else if resp.code = 404 then
        let msg := "❌ Failed to cancel order #" ++ oid ++ ". Reason: Order not found by API."
        { orders := r.1, branch := .notFound404, cancelCalls := 1,
          message := msg, lastActionResult := some msg }
      else
        let msg := "❌ Failed to cancel order #" ++ oid ++ ". API Error (" ++
          toString resp.code ++ "): " ++ resp.error.getD resp.text
        { orders := r.1, branch := .httpStatusError resp.code, cancelCalls := 1,
          message := msg, lastActionResult := some msg }
  else
    { orders := orders, branch := .unknownAction, cancelCalls := 0,
      message := "Unknown action type: " ++ action_type,
      lastActionResult := some ("Unknown action type: " ++ action_type) }

/-- Result of one pass over the confirmation-button block of `main.py`. -/
structure ConfirmStep where
  pending : Option PendingDetails
  orders : OrdersMap
  shown : Option String
  cancelCalls : Nat
  deriving DecidableEq

/-- One pass over the confirmation-button block (`main.py` lines 64-108): when
`st.session_state.pending_confirmation_details` is absent the block does not
render and nothing runs; when present and the button is clicked, the handler
runs `execute_confirmed_action` with the staged details, displays its result
message, and clears the pending details afterwards. -/
def confirmationStep (pending : Option PendingDetails) (orders : OrdersMap)
    (now : Int) : ConfirmStep :=
  match pending with
  | none => { pending := none, orders := orders, shown := none, cancelCalls := 0 }
  | some p =>
    let r := executeConfirmedAction p.action_type (ActionDetails.ofDetails p.details)
      orders now
    { pending := none, orders := r.orders, shown := some r.message,
      cancelCalls := r.cancelCalls }

/-- One eligibility-check tool invocation, as it updates the assistant's
pending state: line 99 discards the previous pending unconditionally, so the
new pending is whatever this check stages. -/
def applyCheck (pending : Option PendingDetails) (inv : String × TrackResult)
    (now : Int) : Option PendingDetails :=
  match pending with
  | _ => (cancelOrderCheck inv.1 inv.2 now).2

/-- The pending confirmation a `process_user_query` turn returns: line 237
clears the pending state before the agent run, then every tool invocation of
the run updates it in order; the value after the run is surfaced as the
turn's `confirmation_request`. `_prior` is the pending state left from before
the turn, which line 237 discards. -/
def turnConfirmation (_prior : Option PendingDetails)
    (checks : List (String × TrackResult)) (now : Int) : Option PendingDetails :=
  checks.foldl (fun p inv => applyCheck p inv now) none

/-- The store's initial `orders` dict (`endpoints.py` lines 18-61), with the
relative placement dates taken from one module-load instant `now`. -/
def initialOrders (now : Int) : OrdersMap :=
  [("ORD123", { id := "ORD123", item := "Running Shoes", status := "Shipped",
                placed_date := some (now - timedeltaDays 5),
                comment := "Customer requested fast delivery." }),
   ("ORD456", { id := "ORD456", item := "Laptop Stand", status := "Processing",
                placed_date := some (now - timedeltaDays 15),
                comment := "Awaiting stock." }),
   ("ORD789", { id := "ORD789", item := "Coffee Mug", status := "Delivered",
                placed_date := some (now - timedeltaDays 2),
                comment := "Gift wrapped." }),
   ("ORD910", { id := "ORD910", item := "Boundary Case 10d", status := "Processing",
                placed_date := some (now - timedeltaDays 10),
                comment := "Test 10-day boundary." }),
   ("ORD911", { id := "ORD911", item := "Boundary Case 11d", status := "Processing",
                placed_date := some (now - timedeltaDays 11),
                comment := "Test 11-day boundary (ineligible)." }),
   ("ORD912", { id := "ORD912", item := "Standard Mug", status := "Cancelled",
                placed_date := some (now - timedeltaDays 4),
                comment := "Order previously cancelled by support." })]

/-- A sample instant used by concrete witnesses: 2026-10-12T00:00:00 as epoch
microseconds. -/
def sampleNow : Int := daysFromCivil 2026 10 12 * usecPerDay

example : daysFromCivil 1970 1 1 = 0 := by decide
example : daysFromCivil 2026 10 2 = 20728 := by decide
example : civilFromDays 20728 = (2026, 10, 2) := by decide
example : showDate 20728 = "2026-10-02" := by decide
example : fromisoformat "2026-10-02T00:00:00" = some 1790899200000000 := by decide
example : fromisoformat "2026-10-02" = some 1790899200000000 := by decide
example : fromisoformat "2026-10-02T12:30:05.123456" =
    some (1790899200000000 + ((12 * 3600 + 30 * 60 + 5) * 1000000 + 123456)) := by decide
example : fromisoformat "" = none := by rfl
example : fromisoformat "not-a-date" = none := by rfl
example : fromisoformat "2026-13-02" = none := by rfl
example : fromisoformat "2026-02-30" = none := by rfl

/-!
Helper lemmas: string heads and substrings, floor-division date arithmetic,
association-list lookup/update, and characterizations of the eligibility
check and the executor used by several claims.
-/

theorem data_append (a b : String) : (a ++ b).data = a.data ++ b.data := rfl

theorem str_ne_of_head {a b : String} {c1 c2 : Char} {l1 l2 : List Char}
    (ha : a.data = c1 :: l1) (hb : b.data = c2 :: l2) (h : c1 ≠ c2) : a ≠ b := by
  intro he
  apply h
  have hd : c1 :: l1 = c2 :: l2 := by rw [← ha, ← hb, he]
  exact (List.cons.inj hd).1

theorem head_of_append {s : String} {c : Char} {r : List Char}
    (hs : s.data = c :: r) (t : String) : ∃ l, (s ++ t).data = c :: l :=
  ⟨r ++ t.data, by rw [data_append, hs]; rfl⟩

theorem infix_of_append_right {l : List Char} {t : String} (h : l <:+: t.data)
    (s : String) : l <:+: (s ++ t).data := by
  rw [data_append]
  exact h.trans (List.suffix_append s.data t.data).isInfix

theorem dateOf_sub_day (t : Int) : dateOf (t - usecPerDay) = dateOf t - 1 := by
  unfold dateOf usecPerDay
  rw [Int.fdiv_eq_ediv _ (by norm_num), Int.fdiv_eq_ediv _ (by norm_num)]
  have h : t - (86400000000 : Int) = t + (-1) * 86400000000 := by ring
  rw [h, Int.add_mul_ediv_right _ _ (by norm_num)]
  ring

theorem OrdersMap.get_set_self (m : OrdersMap) (k : String) (v : StoreOrder) :
    (m.set k v).get k = some v := by
  induction m with
  | nil => simp [OrdersMap.set, OrdersMap.get]
  | cons hd tl ih =>
    obtain ⟨k0, v0⟩ := hd
    by_cases hk : k0 = k
    · simp [OrdersMap.set, OrdersMap.get, hk]
    · simp [OrdersMap.set, OrdersMap.get, hk, ih]

theorem OrdersMap.get_set_ne (m : OrdersMap) (k k2 : String) (v : StoreOrder)
    (h : k2 ≠ k) : (m.set k v).get k2 = m.get k2 := by
  have h2 : k ≠ k2 := fun hh => h hh.symm
  induction m with
  | nil => simp [OrdersMap.set, OrdersMap.get, h2]
  | cons hd tl ih =>
    obtain ⟨k0, v0⟩ := hd
    by_cases hk : k0 = k
    · subst hk
      simp [OrdersMap.set, OrdersMap.get, h2]
    · by_cases hk2 : k0 = k2
      · simp [OrdersMap.set, OrdersMap.get, hk, hk2, h]
      · simp [OrdersMap.set, OrdersMap.get, hk, hk2, ih]

theorem fromisoformat_ne_empty {ds : String} {dt : Int}
    (hp : fromisoformat ds = some dt) : ds ≠ "" := by
  intro he
  rw [he] at hp
  exact Option.noConfusion (show (none : Option Int) = some dt from hp)

theorem check_ok_cancelled (oid status item : String) (placed : Option String)
    (now : Int) (h : lowerStr status = "cancelled") :
    cancelOrderCheck oid (.ok status item placed) now =
      ({ order_id := oid, eligible_for_confirmation := false,
         comment := alreadyCancelledComment oid item,
         details := some { order_id := oid, item_name := item,
                           current_status := status, placed_date_str := placed } },
       none) := by
  simp [cancelOrderCheck, h]

theorem check_ok_parsed (oid status item ds : String) (dt now : Int)
    (hst : lowerStr status ≠ "cancelled") (hp : fromisoformat ds = some dt) :
    cancelOrderCheck oid (.ok status item (some ds)) now =
      (let details : OrderDetails :=
        { order_id := oid, item_name := item, current_status := status,
          placed_date_str := some ds }
      if dateOf dt ≥ dateOf (now - timedeltaDays 10) then
        ({ order_id := oid, eligible_for_confirmation := true,
           comment := eligibleComment oid item (dateOf dt) status,
           details := some details },
         some { action_type := "cancel_order", details := details })
      else
        ({ order_id := oid, eligible_for_confirmation := false,
           comment := tooOldComment oid item (dateOf dt)
             (dateOf (now - timedeltaDays 10)),
           details := some details },
         none)) := by
  have hds : ds ≠ "" := fromisoformat_ne_empty hp
  simp only [cancelOrderCheck, hst, if_false, hds, hp]

theorem check_ok_missing (oid status item : String) (now : Int)
    (hst : lowerStr status ≠ "cancelled") :
    cancelOrderCheck oid (.ok status item none) now =
      ({ order_id := oid, eligible_for_confirmation := false,
         comment := missingDateComment oid,
         details := some { order_id := oid, item_name := item,
                           current_status := status, placed_date_str := none } },
       none) := by
  simp [cancelOrderCheck, hst]

theorem check_ok_empty (oid status item : String) (now : Int)
    (hst : lowerStr status ≠ "cancelled") :
    cancelOrderCheck oid (.ok status item (some "")) now =
      ({ order_id := oid, eligible_for_confirmation := false,
         comment := missingDateComment oid,
         details := some { order_id := oid, item_name := item,
                           current_status := status, placed_date_str := some "" } },
       none) := by
  simp [cancelOrderCheck, hst]

theorem check_ok_unparsable (oid status item ds : String) (now : Int)
    (hst : lowerStr status ≠ "cancelled") (hds : ds ≠ "")
    (hp : fromisoformat ds = none) :
    cancelOrderCheck oid (.ok status item (some ds)) now =
      ({ order_id := oid, eligible_for_confirmation := false,
         comment := invalidDateComment oid,
         details := some { order_id := oid, item_name := item,
                           current_status := status, placed_date_str := some ds } },
       none) := by
  simp [cancelOrderCheck, hst, hds, hp]

theorem check_pending_none_of_not_eligible (oid : String) (track : TrackResult)
    (now : Int)
    (h : (cancelOrderCheck oid track now).1.eligible_for_confirmation = false) :
    (cancelOrderCheck oid track now).2 = none := by
  cases track with
  | notFound => rfl
  | httpError c => rfl
  | ok status item placed =>
    by_cases hst : lowerStr status = "cancelled"
    · rw [check_ok_cancelled oid status item placed now hst]
    · cases placed with
      | none => rw [check_ok_missing oid status item now hst]
      | some ds =>
        by_cases hds : ds = ""
        · subst hds
          rw [check_ok_empty oid status item now hst]
        · cases hpc : fromisoformat ds with
          | none => rw [check_ok_unparsable oid status item ds now hst hds hpc]
          | some dt =>
            by_cases hc : dateOf dt ≥ dateOf (now - timedeltaDays 10)
            · rw [check_ok_parsed oid status item ds dt now hst hpc] at h
              simp [hc] at h
            · rw [check_ok_parsed oid status item ds dt now hst hpc]
              simp [hc]

theorem execute_calls_le_one (a : String) (d : ActionDetails) (o : OrdersMap)
    (n : Int) : (executeConfirmedAction a d o n).cancelCalls ≤ 1 := by
  obtain ⟨oid?, item?⟩ := d
  unfold executeConfirmedAction
  cases oid? with
  | none => split <;> simp
  | some oid =>
    split
    · simp only []
      split_ifs <;> simp
    · simp

/-- C2: for every order snapshot whose status is not Cancelled and whose
placed_at parses as a valid date, the eligibility evaluation returns eligible
iff `date(placed_at) >= date(now - 10 days)`, at calendar-date granularity;
the boundary is inclusive: an order placed exactly 10 days ago is eligible,
one placed exactly 11 days ago is not. -/
theorem C2_eligibility_calendar_boundary (oid status item ds : String)
    (dt now : Int) (hst : lowerStr status ≠ "cancelled")
    (hp : fromisoformat ds = some dt) :
    ((cancelOrderCheck oid (.ok status item (some ds)) now).1.eligible_for_confirmation
        = true ↔ dateOf dt ≥ dateOf (now - timedeltaDays 10)) ∧
    (dt = now - timedeltaDays 10 →
      (cancelOrderCheck oid (.ok status item (some ds)) now).1.eligible_for_confirmation
        = true) ∧
    (dt = now - timedeltaDays 11 →
      (cancelOrderCheck oid (.ok status item (some ds)) now).1.eligible_for_confirmation
        = false) := by
  rw [check_ok_parsed oid status item ds dt now hst hp]
  refine ⟨?_, ?_, ?_⟩
  · by_cases hc : dateOf dt ≥ dateOf (now - timedeltaDays 10) <;> simp [hc]
  · intro he
    subst he
    simp
  · intro he
    subst he
    have h11 : now - timedeltaDays 11 = now - timedeltaDays 10 - usecPerDay := by
      unfold timedeltaDays usecPerDay
      ring
    have hlt : dateOf (now - timedeltaDays 11) = dateOf (now - timedeltaDays 10) - 1 := by
      rw [h11, dateOf_sub_day]
    have hc : ¬ dateOf (now - timedeltaDays 11) ≥ dateOf (now - timedeltaDays 10) := by
      omega
    simp [hc]

/-- Witness for C2: order ORD910-style data placed exactly 10 days before
`sampleNow` parses, is not cancelled, and is eligible. -/
theorem C2_witness :
    (lowerStr "Processing" ≠ "cancelled") ∧
    fromisoformat "2026-10-02T00:00:00" = some (sampleNow - timedeltaDays 10) ∧
    (cancelOrderCheck "ORD910"
        (.ok "Processing" "Boundary Case 10d" (some "2026-10-02T00:00:00"))
        sampleNow).1.eligible_for_confirmation = true := by
  refine ⟨by decide, by decide, ?_⟩
  exact (C2_eligibility_calendar_boundary "ORD910" "Processing" "Boundary Case 10d"
    "2026-10-02T00:00:00" (sampleNow - timedeltaDays 10) sampleNow (by decide)
    (by decide)).2.1 rfl

/-- C6: for every snapshot whose status is Cancelled, the eligibility
evaluation returns eligible = false with the already-cancelled comment (which
contains the words "already" and "cancelled"), stages no pending action, and
does so regardless of the placed date or the current time — the cancelled
check precedes the date/policy check unconditionally. -/
theorem C6_cancelled_precedes_date (oid status item : String)
    (placed : Option String) (now : Int) (h : lowerStr status = "cancelled") :
    ((cancelOrderCheck oid (.ok status item placed) now).1.eligible_for_confirmation
      = false) ∧
    ((cancelOrderCheck oid (.ok status item placed) now).1.comment =
      alreadyCancelledComment oid item) ∧
    ("already".data <:+:
      (cancelOrderCheck oid (.ok status item placed) now).1.comment.data) ∧
    ("cancelled".data <:+:
      (cancelOrderCheck oid (.ok status item placed) now).1.comment.data) ∧
    ((cancelOrderCheck oid (.ok status item placed) now).2 = none) ∧
    (∀ (placed2 : Option String) (now2 : Int),
      (cancelOrderCheck oid (.ok status item placed2) now2).1.eligible_for_confirmation
        = false ∧
      (cancelOrderCheck oid (.ok status item placed2) now2).1.comment =
        alreadyCancelledComment oid item) := by
  have hinf1 : ("already".data) <:+: (") has already been cancelled.".data) := by
    decide
  have hinf2 : ("cancelled".data) <:+: (") has already been cancelled.".data) := by
    decide
  rw [check_ok_cancelled oid status item placed now h]
  refine ⟨rfl, rfl, ?_, ?_, rfl, ?_⟩
  · unfold alreadyCancelledComment
    exact infix_of_append_right hinf1 _
  · unfold alreadyCancelledComment
    exact infix_of_append_right hinf2 _
  · intro placed2 now2
    rw [check_ok_cancelled oid status item placed2 now2 h]
    exact ⟨rfl, rfl⟩

/-- Witness for C6: the already-cancelled order ORD912, placed only 4 days
ago, is reported ineligible with the already-cancelled comment. -/
theorem C6_witness :
    (lowerStr "Cancelled" = "cancelled") ∧
    (cancelOrderCheck "ORD912" (.ok "Cancelled" "Standard Mug"
        (some "2026-10-08T00:00:00")) sampleNow).1.eligible_for_confirmation = false ∧
    (cancelOrderCheck "ORD912" (.ok "Cancelled" "Standard Mug"
        (some "2026-10-08T00:00:00")) sampleNow).1.comment =
      alreadyCancelledComment "ORD912" "Standard Mug" := by
  have h := C6_cancelled_precedes_date "ORD912" "Cancelled" "Standard Mug"
    (some "2026-10-08T00:00:00") sampleNow (by decide)
  exact ⟨by decide, h.1, h.2.1⟩

/-- C8: a 404 from the tracking lookup makes the eligibility evaluation
return eligible = false with the not-found comment (which contains
"not found") and a cleared pending state; and in general every ineligible
evaluation leaves the assistant's pending-confirmation state empty,
whatever was staged before. -/
theorem C8_not_found_forces_idle (oid : String) (now : Int) :
    ((cancelOrderCheck oid .notFound now).1.eligible_for_confirmation = false) ∧
    ((cancelOrderCheck oid .notFound now).1.comment = notFoundComment oid) ∧
    ("not found".data <:+: (cancelOrderCheck oid .notFound now).1.comment.data) ∧
    ((cancelOrderCheck oid .notFound now).2 = none) ∧
    (∀ (pending : Option PendingDetails) (track : TrackResult),
      (cancelOrderCheck oid track now).1.eligible_for_confirmation = false →
      applyCheck pending (oid, track) now = none) := by
  have hinf : ("not found".data) <:+: ("' not found.".data) := by decide
  refine ⟨rfl, rfl, ?_, rfl, ?_⟩
  · show ("not found".data) <:+: (notFoundComment oid).data
    unfold notFoundComment
    exact infix_of_append_right hinf _
  · intro pending track h
    cases pending with
    | none => exact check_pending_none_of_not_eligible oid track now h
    | some p => exact check_pending_none_of_not_eligible oid track now h

/-- Witness for C8: a 404 for ORD000 is ineligible with the not-found
comment, and an ineligible check clears a previously staged pending action. -/
theorem C8_witness :
    ((cancelOrderCheck "ORD000" .notFound sampleNow).1.eligible_for_confirmation
      = false) ∧
    ((cancelOrderCheck "ORD000" .notFound sampleNow).1.comment =
      "Order ID 'ORD000' not found.") ∧
    applyCheck
      (some { action_type := "cancel_order",
              details := { order_id := "ORD123", item_name := "Running Shoes",
                           current_status := "Shipped", placed_date_str := none } })
      ("ORD000", TrackResult.notFound) sampleNow = none := by
  have h := C8_not_found_forces_idle "ORD000" sampleNow
  exact ⟨h.1, h.2.1, h.2.2.2.2 _ _ h.1⟩

theorem missingDateComment_head (oid : String) :
    ∃ l, (missingDateComment oid).data = 'C' :: l := by
  have hC : ("Could not verify cancellation policy for order ").data =
      'C' :: ("ould not verify cancellation policy for order ").data := rfl
  unfold missingDateComment
  obtain ⟨l1, h1⟩ := head_of_append hC oid
  exact head_of_append h1 ". Placement date missing from API response."

theorem invalidDateComment_head (oid : String) :
    ∃ l, (invalidDateComment oid).data = 'C' :: l := by
  have hC : ("Could not verify cancellation policy for order ").data =
      'C' :: ("ould not verify cancellation policy for order ").data := rfl
  unfold invalidDateComment
  obtain ⟨l1, h1⟩ := head_of_append hC oid
  exact head_of_append h1 ". Invalid date format received from API."

theorem tooOldComment_head (oid item : String) (pd cd : Int) :
    ∃ l, (tooOldComment oid item pd cd).data = 'O' :: l := by
  have hO : ("Order ").data = 'O' :: ("rder ").data := rfl
  unfold tooOldComment
  obtain ⟨l1, h1⟩ := head_of_append hO oid
  obtain ⟨l2, h2⟩ := head_of_append h1 " ("
  obtain ⟨l3, h3⟩ := head_of_append h2 item
  obtain ⟨l4, h4⟩ := head_of_append h3 ", placed "
  obtain ⟨l5, h5⟩ := head_of_append h4 (showDate pd)
  obtain ⟨l6, h6⟩ := head_of_append h5
    ") cannot be cancelled. It is older than the 10-day policy limit (cutoff date: "
  obtain ⟨l7, h7⟩ := head_of_append h6 (showDate cd)
  exact head_of_append h7 ")."

/-- C9: for every snapshot whose status is not Cancelled but whose placed_at
is missing (or the empty string, which Python truthiness treats as missing)
or fails to parse, the eligibility evaluation returns eligible = false with a
"Could not verify cancellation policy" comment, and that comment is distinct
from the too-old policy-limit comment, whatever arguments either is built
from. -/
theorem C9_cannot_verify_distinct (oid status item : String) (now : Int)
    (hst : lowerStr status ≠ "cancelled") :
    ((cancelOrderCheck oid (.ok status item none) now).1.eligible_for_confirmation
        = false ∧
     (cancelOrderCheck oid (.ok status item none) now).1.comment =
        missingDateComment oid) ∧
    ((cancelOrderCheck oid (.ok status item (some "")) now).1.eligible_for_confirmation
        = false ∧
     (cancelOrderCheck oid (.ok status item (some "")) now).1.comment =
        missingDateComment oid) ∧
    (∀ ds : String, ds ≠ "" → fromisoformat ds = none →
      (cancelOrderCheck oid (.ok status item (some ds)) now).1.eligible_for_confirmation
        = false ∧
      (cancelOrderCheck oid (.ok status item (some ds)) now).1.comment =
        invalidDateComment oid) ∧
    (∀ (oid2 item2 : String) (pd cd : Int),
      missingDateComment oid ≠ tooOldComment oid2 item2 pd cd ∧
      invalidDateComment oid ≠ tooOldComment oid2 item2 pd cd) := by
  refine ⟨?_, ?_, ?_, ?_⟩
  · rw [check_ok_missing oid status item now hst]
    exact ⟨rfl, rfl⟩
  · rw [check_ok_empty oid status item now hst]
    exact ⟨rfl, rfl⟩
  · intro ds hds hp
    rw [check_ok_unparsable oid status item ds now hst hds hp]
    exact ⟨rfl, rfl⟩
  · intro oid2 item2 pd cd
    obtain ⟨lm, hm⟩ := missingDateComment_head oid
    obtain ⟨li, hi⟩ := invalidDateComment_head oid
    obtain ⟨lt, ht⟩ := tooOldComment_head oid2 item2 pd cd
    exact ⟨str_ne_of_head hm ht (by decide), str_ne_of_head hi ht (by decide)⟩

/-- Witness for C9: a Processing order with a garbled date string is
ineligible with the invalid-date comment, distinct from the too-old
comment. -/
theorem C9_witness :
    (lowerStr "Processing" ≠ "cancelled") ∧
    ("garbage" ≠ "") ∧
    fromisoformat "garbage" = none ∧
    (cancelOrderCheck "ORD123" (.ok "Processing" "Running Shoes" (some "garbage"))
        sampleNow).1.comment = invalidDateComment "ORD123" ∧
    invalidDateComment "ORD123" ≠
      tooOldComment "ORD123" "Running Shoes" 20713 20728 := by
  have h := C9_cannot_verify_distinct "ORD123" "Processing" "Running Shoes"
    sampleNow (by decide)
  exact ⟨by decide, by decide, by decide,
    (h.2.2.1 "garbage" (by decide) (by decide)).2,
    (h.2.2.2 "ORD123" "Running Shoes" 20713 20728).2⟩

theorem comment_append_ne (c : String) : c ++ " [User Cancelled]" ≠ c := by
  intro h
  have hl := congrArg String.length h
  rw [String.length_append] at hl
  have : (" [User Cancelled]").length = 17 := by decide
  omega

/-- C10: the store's POST /cancel mutates the orders map iff it returns 200
with success true; on every non-success path (404 not found, 409 already
cancelled, 403 missing placed_date, 403 policy-too-old) the orders map is
left completely unchanged, and on success only the target order's `status`
and `comment` fields change, every other key keeping its record. -/
theorem C10_cancel_mutates_iff_success (orders : OrdersMap) (oid : String)
    (now : Int) :
    (¬((cancelOrderEndpoint orders oid now).2.code = 200 ∧
        (cancelOrderEndpoint orders oid now).2.success = true) →
      (cancelOrderEndpoint orders oid now).1 = orders) ∧
    (((cancelOrderEndpoint orders oid now).2.code = 200 ∧
        (cancelOrderEndpoint orders oid now).2.success = true) →
      ∃ order : StoreOrder, orders.get oid = some order ∧
        (cancelOrderEndpoint orders oid now).1 =
          orders.set oid
            { order with status := "Cancelled",
                         comment := order.comment ++ " [User Cancelled]" } ∧
        (cancelOrderEndpoint orders oid now).1.get oid ≠ orders.get oid ∧
        ∀ k, k ≠ oid → (cancelOrderEndpoint orders oid now).1.get k = orders.get k) := by
  cases hget : OrdersMap.get orders oid with
  | none =>
    have he : cancelOrderEndpoint orders oid now =
        (orders, { code := 404, success := false, order_id := oid,
                   message := none, error := some "Order not found" }) := by
      simp [cancelOrderEndpoint, hget]
    rw [he]
    exact ⟨fun _ => rfl, fun h => by simp at h⟩
  | some order =>
    by_cases hc : lowerStr order.status = "cancelled"
    · have he : cancelOrderEndpoint orders oid now =
          (orders, { code := 409, success := true, order_id := oid,
                     message := some "Order was already cancelled.",
                     error := none }) := by
        simp [cancelOrderEndpoint, hget, hc]
      rw [he]
      exact ⟨fun _ => rfl, fun h => by simp at h⟩
    · cases hpd : order.placed_date with
      | none =>
        have he : cancelOrderEndpoint orders oid now =
            (orders, { code := 403, success := false, order_id := oid,
                       message := none,
                       error := some "Order cannot be cancelled (missing placement date)." }) := by
          simp [cancelOrderEndpoint, hget, hc, hpd]
        rw [he]
        exact ⟨fun _ => rfl, fun h => by simp at h⟩
      | some placed =>
        by_cases hlt : placed > now - timedeltaDays 10
        · have he : cancelOrderEndpoint orders oid now =
              (orders.set oid
                { order with status := "Cancelled",
                             comment := order.comment ++ " [User Cancelled]" },
               { code := 200, success := true, order_id := oid,
                 message := some "Order cancelled successfully.", error := none }) := by
            simp [cancelOrderEndpoint, hget, hc, hpd, hlt]
          rw [he]
          refine ⟨fun h => absurd ⟨rfl, rfl⟩ h, fun _ => ⟨order, rfl, rfl, ?_, ?_⟩⟩
          · rw [OrdersMap.get_set_self]
            intro heq
            have heq2 := Option.some.inj heq
            have hcm := congrArg StoreOrder.comment heq2
            exact comment_append_ne order.comment hcm
          · intro k hk
            exact OrdersMap.get_set_ne orders oid k _ hk
        · have he : cancelOrderEndpoint orders oid now =
              (orders, { code := 403, success := false, order_id := oid,
                         message := none,
                         error := some ("Order cannot be cancelled (placed on " ++
                           showDate (dateOf placed) ++ "). Policy limit: 10 days.") }) := by
            simp [cancelOrderEndpoint, hget, hc, hpd, hlt]
          rw [he]
          exact ⟨fun _ => rfl, fun h => by simp at h⟩

/-- Witness for C10: cancelling the too-old order ORD456 returns a
non-success 403 and leaves the store unchanged. -/
theorem C10_witness :
    (¬((cancelOrderEndpoint (initialOrders sampleNow) "ORD456" sampleNow).2.code = 200 ∧
       (cancelOrderEndpoint (initialOrders sampleNow) "ORD456" sampleNow).2.success = true)) ∧
    (cancelOrderEndpoint (initialOrders sampleNow) "ORD456" sampleNow).1 =
      initialOrders sampleNow := by
  refine ⟨by decide, ?_⟩
  exact (C10_cancel_mutates_iff_success (initialOrders sampleNow) "ORD456" sampleNow).1
    (by decide)

/-- C5: the store's POST /cancel decides with a strict full-datetime
comparison (`placed_date > now - 10 days`, sub-day granularity): for a
non-cancelled order with a placed date, the cancellation succeeds (200,
success) iff the placed datetime is strictly later than the cutoff datetime,
and otherwise responds 403 leaving the store unchanged; in particular an
order placed exactly 10 days ago to the microsecond is rejected with 403,
while the client-side eligibility check, comparing calendar dates
inclusively, deems a snapshot with that same placed datetime eligible. -/
theorem C5_store_strict_subday_cutoff (orders : OrdersMap) (oid : String)
    (now : Int) (order : StoreOrder) (placed : Int)
    (hget : orders.get oid = some order)
    (hst : lowerStr order.status ≠ "cancelled")
    (hpd : order.placed_date = some placed) :
    (((cancelOrderEndpoint orders oid now).2.code = 200 ∧
      (cancelOrderEndpoint orders oid now).2.success = true) ↔
        placed > now - timedeltaDays 10) ∧
    (¬ placed > now - timedeltaDays 10 →
      (cancelOrderEndpoint orders oid now).2.code = 403 ∧
      (cancelOrderEndpoint orders oid now).1 = orders) ∧
    (placed = now - timedeltaDays 10 →
      (cancelOrderEndpoint orders oid now).2.code = 403 ∧
      ∀ (status2 item2 ds : String), lowerStr status2 ≠ "cancelled" →
        fromisoformat ds = some placed →
        (cancelOrderCheck oid (.ok status2 item2 (some ds))
          now).1.eligible_for_confirmation = true) := by
  by_cases hlt : placed > now - timedeltaDays 10
  · have he : cancelOrderEndpoint orders oid now =
        (orders.set oid
          { order with status := "Cancelled",
                       comment := order.comment ++ " [User Cancelled]" },
         { code := 200, success := true, order_id := oid,
           message := some "Order cancelled successfully.", error := none }) := by
      simp [cancelOrderEndpoint, hget, hst, hpd, hlt]
    rw [he]
    refine ⟨⟨fun _ => hlt, fun _ => ⟨rfl, rfl⟩⟩, fun hn => absurd hlt hn, fun heq => ?_⟩
    rw [heq] at hlt
    omega
  · have he : cancelOrderEndpoint orders oid now =
        (orders, { code := 403, success := false, order_id := oid,
                   message := none,
                   error := some ("Order cannot be cancelled (placed on " ++
                     showDate (dateOf placed) ++ "). Policy limit: 10 days.") }) := by
      simp [cancelOrderEndpoint, hget, hst, hpd, hlt]
    rw [he]
    refine ⟨⟨fun h => by simp at h, fun h => absurd h hlt⟩,
      fun _ => ⟨rfl, rfl⟩, fun heq => ⟨rfl, ?_⟩⟩
    intro status2 item2 ds hst2 hp
    rw [check_ok_parsed oid status2 item2 ds placed now hst2 hp]
    have hdeq : dateOf placed ≥ dateOf (now - timedeltaDays 10) := by
      rw [heq]
    simp [hdeq]

/-- Witness for C5: ORD910, placed exactly 10 days before `sampleNow`, is
rejected by the store with 403 while the client-side check on the same
snapshot reports it eligible. -/
theorem C5_witness :
    ((initialOrders sampleNow).get "ORD910" =
      some { id := "ORD910", item := "Boundary Case 10d", status := "Processing",
             placed_date := some (sampleNow - timedeltaDays 10),
             comment := "Test 10-day boundary." }) ∧
    (cancelOrderEndpoint (initialOrders sampleNow) "ORD910" sampleNow).2.code = 403 ∧
    (cancelOrderCheck "ORD910"
      (.ok "Processing" "Boundary Case 10d" (some "2026-10-02T00:00:00"))
      sampleNow).1.eligible_for_confirmation = true := by
  have h := C5_store_strict_subday_cutoff (initialOrders sampleNow) "ORD910" sampleNow
    { id := "ORD910", item := "Boundary Case 10d", status := "Processing",
      placed_date := some (sampleNow - timedeltaDays 10),
      comment := "Test 10-day boundary." }
    (sampleNow - timedeltaDays 10) (by decide) (by decide) rfl
  have h3 := h.2.2 rfl
  exact ⟨by decide, h3.1,
    h3.2 "Processing" "Boundary Case 10d" "2026-10-02T00:00:00" (by decide) (by decide)⟩

/-- C7: the assistant session holds at most one pending action (a single
optional value); every eligibility check discards whatever was staged before
it, so after a turn whose last check is `c`, the surfaced pending
confirmation is exactly what `c` stages, independently of the pending state
from before the turn — a freshly staged action is never shadowed by a stale
prior one. -/
theorem C7_last_check_wins (prior prior2 : Option PendingDetails)
    (checks : List (String × TrackResult)) (c : String × TrackResult)
    (now : Int) :
    (turnConfirmation prior (checks ++ [c]) now = (cancelOrderCheck c.1 c.2 now).2) ∧
    (turnConfirmation prior checks now = turnConfirmation prior2 checks now) ∧
    (turnConfirmation prior [] now = none) ∧
    (∀ pending : Option PendingDetails,
      applyCheck pending c now = (cancelOrderCheck c.1 c.2 now).2) := by
  refine ⟨?_, rfl, rfl, ?_⟩
  · unfold turnConfirmation
    rw [List.foldl_append]
    rfl
  · intro pending
    cases pending <;> rfl

/-- C1 (amended): once an approval pass has begun executing a staged pending
cancellation, the pending details are cleared, so a second approval pass
finds nothing pending and is a no-op — the confirmation block does not
render, shows no message, and does not invoke the cancel endpoint; across
the two passes the store's cancel endpoint is invoked at most once for the
staged action. -/
theorem C1_exactly_once (p : PendingDetails) (orders : OrdersMap) (now : Int) :
    ((confirmationStep (some p) orders now).pending = none) ∧
    ((confirmationStep (some p) orders now).cancelCalls ≤ 1) ∧
    (confirmationStep (confirmationStep (some p) orders now).pending
        (confirmationStep (some p) orders now).orders now =
      { pending := none, orders := (confirmationStep (some p) orders now).orders,
        shown := none, cancelCalls := 0 }) := by
  refine ⟨rfl, ?_, rfl⟩
  exact execute_calls_le_one _ _ _ _

/-- Counterexample to C1 as stated: after one approval executes the staged
cancellation of ORD123 (one cancel call), the second approval pass produces
no message whatsoever (`shown = none`) — there is no "no pending
confirmation" / StaleConfirmation error anywhere in the code — and makes no
cancel call. -/
theorem C1_counterexample :
    (let p : PendingDetails :=
      { action_type := "cancel_order",
        details := { order_id := "ORD123", item_name := "Running Shoes",
                     current_status := "Shipped", placed_date_str := none } }
    let s1 := confirmationStep (some p) (initialOrders sampleNow) sampleNow
    let s2 := confirmationStep s1.pending s1.orders sampleNow
    s1.cancelCalls = 1 ∧ s2.shown = none ∧ s2.cancelCalls = 0) := by
  decide

/-- C3 (amended): `execute_confirmed_action` performs no validation against
any staged pending action — it never reads the session's pending state. Its
only checks are the action type and the presence of a truthy order_id in the
details dict it is handed: a missing or empty order_id yields the
missing-order_id error message without invoking the store (though it still
overwrites the last-action result), an unknown action type does not invoke
the store, and any non-empty order_id always leads to one cancel-endpoint
invocation, whatever is or is not staged. -/
theorem C3_executor_validation (details : ActionDetails) (orders : OrdersMap)
    (now : Int) :
    ((details.order_id = none ∨ details.order_id = some "") →
      (executeConfirmedAction "cancel_order" details orders now).message =
        "Error: Missing order_id for cancellation." ∧
      (executeConfirmedAction "cancel_order" details orders now).cancelCalls = 0 ∧
      (executeConfirmedAction "cancel_order" details orders now).orders = orders ∧
      (executeConfirmedAction "cancel_order" details orders now).lastActionResult =
        some "Error: Missing order_id for cancellation.") ∧
    (∀ a : String, a ≠ "cancel_order" →
      (executeConfirmedAction a details orders now).cancelCalls = 0 ∧
      (executeConfirmedAction a details orders now).orders = orders) ∧
    (∀ oid : String, details.order_id = some oid → oid ≠ "" →
      (executeConfirmedAction "cancel_order" details orders now).cancelCalls = 1) := by
  refine ⟨?_, ?_, ?_⟩
  · intro h
    rcases h with h | h
    · have he : executeConfirmedAction "cancel_order" details orders now =
          { orders := orders, branch := .missingOrderId, cancelCalls := 0,
            message := "Error: Missing order_id for cancellation.",
            lastActionResult := some "Error: Missing order_id for cancellation." } := by
        simp [executeConfirmedAction, h]
      rw [he]
      exact ⟨rfl, rfl, rfl, rfl⟩
    · have he : executeConfirmedAction "cancel_order" details orders now =
          { orders := orders, branch := .missingOrderId, cancelCalls := 0,
            message := "Error: Missing order_id for cancellation.",
            lastActionResult := some "Error: Missing order_id for cancellation." } := by
        simp [executeConfirmedAction, h]
      rw [he]
      exact ⟨rfl, rfl, rfl, rfl⟩
  · intro a ha
    have he : executeConfirmedAction a details orders now =
        { orders := orders, branch := .unknownAction, cancelCalls := 0,
          message := "Unknown action type: " ++ a,
          lastActionResult := some ("Unknown action type: " ++ a) } := by
      simp [executeConfirmedAction, ha]
    rw [he]
    exact ⟨rfl, rfl⟩
  · intro oid hoid hne
    simp only [executeConfirmedAction, hoid, if_neg hne, if_pos rfl]
    split_ifs <;> rfl

/-- Counterexample to C3 as stated: with nothing pending (the executor never
even receives the session's pending state), an approval call naming ORD123
does not fail with a validation error — it invokes the cancel endpoint once,
succeeds, mutates the store (ORD123 becomes Cancelled) and overwrites the
session's last-action result. -/
theorem C3_counterexample :
    (let r := executeConfirmedAction "cancel_order"
        { order_id := some "ORD123", item_name := some "Running Shoes" }
        (initialOrders sampleNow) sampleNow
    r.cancelCalls = 1 ∧ r.branch = .success200 ∧
    (r.orders.get "ORD123").map StoreOrder.status = some "Cancelled" ∧
    r.message = "✅ Order #ORD123 (Running Shoes) cancelled successfully." ∧
    r.lastActionResult = some "✅ Order #ORD123 (Running Shoes) cancelled successfully.") := by
  decide

/-- C4 (amended): when the store's cancel endpoint reports 409
already-cancelled (body success:true), the executor does not produce a
distinct AlreadyCancelled outcome: the 409 falls through the 200/403/404
cases to `raise_for_status` and is handled by the generic `HTTPStatusError`
path — the same branch any unexpected status takes — yielding the generic
"API Error (409)" failure message with the response body as opaque detail;
the store is left unchanged. -/
theorem C4_already_cancelled_generic (orders : OrdersMap) (oid : String)
    (now : Int) (order : StoreOrder) (item2 : Option String)
    (hne : oid ≠ "") (hget : orders.get oid = some order)
    (hc : lowerStr order.status = "cancelled") :
    (executeConfirmedAction "cancel_order"
        { order_id := some oid, item_name := item2 } orders now).branch =
      .httpStatusError 409 ∧
    (executeConfirmedAction "cancel_order"
        { order_id := some oid, item_name := item2 } orders now).message =
      "❌ Failed to cancel order #" ++ oid ++ ". API Error (" ++
        toString (409 : Nat) ++ "): " ++
        ApiResponse.text { code := 409, success := true, order_id := oid,
                           message := some "Order was already cancelled.",
                           error := none } ∧
    (executeConfirmedAction "cancel_order"
        { order_id := some oid, item_name := item2 } orders now).orders = orders := by
  have he : cancelOrderEndpoint orders oid now =
      (orders, { code := 409, success := true, order_id := oid,
                 message := some "Order was already cancelled.", error := none }) := by
    simp [cancelOrderEndpoint, hget, hc]
  have hx : executeConfirmedAction "cancel_order"
      { order_id := some oid, item_name := item2 } orders now =
      (let msg := "❌ Failed to cancel order #" ++ oid ++ ". API Error (" ++
        toString (409 : Nat) ++ "): " ++
        ApiResponse.text { code := 409, success := true, order_id := oid,
                           message := some "Order was already cancelled.",
                           error := none }
      { orders := orders, branch := .httpStatusError 409, cancelCalls := 1,
        message := msg, lastActionResult := some msg }) := by
    simp [executeConfirmedAction, hne, he, ApiResponse.text]
  rw [hx]
  exact ⟨rfl, rfl, rfl⟩

/-- Counterexample to C4 as stated: for the already-cancelled order ORD912
the store answers with the distinguishable 409 (body success:true), yet the
executor's result comes from the generic HTTPStatusError branch — the one
shared with every unexpected status — with the generic "API Error (409)"
message, not a distinct AlreadyCancelled outcome. -/
theorem C4_counterexample :
    (let r := executeConfirmedAction "cancel_order"
        { order_id := some "ORD912", item_name := some "Standard Mug" }
        (initialOrders sampleNow) sampleNow
    (cancelOrderEndpoint (initialOrders sampleNow) "ORD912" sampleNow).2.code = 409 ∧
    (cancelOrderEndpoint (initialOrders sampleNow) "ORD912" sampleNow).2.success = true ∧
    r.branch = .httpStatusError 409 ∧
    r.message = "❌ Failed to cancel order #ORD912. API Error (409): " ++
      ApiResponse.text { code := 409, success := true, order_id := "ORD912",
                         message := some "Order was already cancelled.",
                         error := none }) := by
  decide

/-- Witness for C4's amended theorem: the concrete already-cancelled order
ORD912 exercises every hypothesis. -/
theorem C4_witness :
    ("ORD912" ≠ "") ∧
    ((initialOrders sampleNow).get "ORD912" =
      some { id := "ORD912", item := "Standard Mug", status := "Cancelled",
             placed_date := some (sampleNow - timedeltaDays 4),
             comment := "Order previously cancelled by support." }) ∧
    (lowerStr "Cancelled" = "cancelled") ∧
    (executeConfirmedAction "cancel_order"
        { order_id := some "ORD912", item_name := some "Standard Mug" }
        (initialOrders sampleNow) sampleNow).branch = .httpStatusError 409 := by
  refine ⟨by decide, by decide, by decide, ?_⟩
  exact (C4_already_cancelled_generic (initialOrders sampleNow) "ORD912" sampleNow
    { id := "ORD912", item := "Standard Mug", status := "Cancelled",
      placed_date := some (sampleNow - timedeltaDays 4),
      comment := "Order previously cancelled by support." }
    (some "Standard Mug") (by decide) (by decide) (by decide)).1

/-- Witness for C3's amended theorem: a details dict with no order_id makes
the executor fail with the missing-order_id message without touching the
store, and a details dict naming ORD123 always makes exactly one cancel
call. -/
theorem C3_witness :
    (({ order_id := none, item_name := none } : ActionDetails).order_id = none) ∧
    (executeConfirmedAction "cancel_order"
        { order_id := none, item_name := none }
        (initialOrders sampleNow) sampleNow).message =
      "Error: Missing order_id for cancellation." ∧
    (executeConfirmedAction "cancel_order"
        { order_id := none, item_name := none }
        (initialOrders sampleNow) sampleNow).cancelCalls = 0 ∧
    (executeConfirmedAction "cancel_order"
        { order_id := some "ORD123", item_name := some "Running Shoes" }
        (initialOrders sampleNow) sampleNow).cancelCalls = 1 := by
  have h1 := (C3_executor_validation
    { order_id := none, item_name := none }
    (initialOrders sampleNow) sampleNow).1 (Or.inl rfl)
  have h2 := (C3_executor_validation
    { order_id := some "ORD123", item_name := some "Running Shoes" }
    (initialOrders sampleNow) sampleNow).2.2 "ORD123" rfl (by decide)
  exact ⟨rfl, h1.1, h1.2.1, h2⟩
